import Mathlib

/-!
Verification of the environmental-simulation and session-workflow core of
the ai-cubes repository.

The development shallowly embeds the four core modules:

* soil classification (SoilZones.tsx),
* the sunlight / water / plant-health model (PlantSystem.tsx together with
  the sun model of SoilZones.tsx),
* the robot scan aggregator (RobotScanner module),
* the workflow step machine (lib/workflow.ts) and the session reducer with
  its storage loading step (SessionContext module).

Numeric code is embedded over an arbitrary linear ordered field so that one
set of definitions serves both executable checks (instantiated at the
rationals) and the analytic facts that involve the trigonometric sun model
(instantiated at the reals).  JavaScript effects are made explicit: the
current time is threaded as an integer argument and the storage read is an
explicit optional parse result.
-/

namespace AiCubes

/-- Soil zone type, from SoilZones.tsx. -/
inductive SoilType where
  | wet
  | dry
  | good
  | bad
  deriving DecidableEq, Repr

/-- Plant health bucket, from PlantSystem.tsx. -/
inductive PlantHealthState where
  | thriving
  | healthy
  | moderate
  | poor
  | dying
  | dead
  deriving DecidableEq, Repr

section EnvModel

variable {K : Type} [LinearOrderedField K]

/-- Soil classification by X/Z quadrant about the center (0.5, 0.5):
getSoilTypeAtPosition in SoilZones.tsx. -/
def getSoilTypeAtPosition (x z : K) : SoilType :=
  let centerX : K := 0.5
  let centerZ : K := 0.5
  if x < centerX ∧ z < centerZ then SoilType.wet
  else if x ≥ centerX ∧ z < centerZ then SoilType.dry
  else if x < centerX ∧ z ≥ centerZ then SoilType.good
  else SoilType.bad

/-- Sunlight exposure at a normalized elevation for a given sun height:
calculateSunlightExposure in SoilZones.tsx.  The source gives the third
parameter a default value of 1, and every call site in the repository uses
that default. -/
def calculateSunlightExposure (elevation sunY baseIntensity : K) : K :=
  let heightBonus := elevation * 0.4
  let sunFactor := max 0 (sunY / 100)
  let exposure := baseIntensity * (1 + heightBonus) * (0.5 + sunFactor * 0.5)
  min 2 (max 0.1 exposure)

/-- Per-soil nutrition attributes used by the plant-health path, from the
SOIL_QUALITY table in PlantSystem.tsx. -/
structure SoilQualityData (K : Type) where
  nutrientLevel : K
  waterRetention : K
  drainageQuality : K
  deriving DecidableEq, Repr

/-- The SOIL_QUALITY table of PlantSystem.tsx. -/
def SOIL_QUALITY : SoilType → SoilQualityData K
  | SoilType.wet => ⟨0.6, 1.0, 0.3⟩
  | SoilType.dry => ⟨0.4, 0.1, 0.9⟩
  | SoilType.good => ⟨1.0, 0.7, 0.8⟩
  | SoilType.bad => ⟨0.2, 0.4, 0.5⟩

/-- Water availability in the plant-health path: calculateWaterAvailability
in PlantSystem.tsx. -/
def calculateWaterAvailability (soilType : SoilType) (hour : K) : K :=
  let soilQuality : SoilQualityData K := SOIL_QUALITY soilType
  let dewBonus : K := if 6 ≤ hour ∧ hour ≤ 9 then 0.15 else 0
  let evaporationPenalty : K := if 11 ≤ hour ∧ hour ≤ 15 then 0.2 else 0
  let baseWater := soilQuality.waterRetention
  max 0 (min 1 (baseWater + dewBonus - evaporationPenalty))

/-- Health bucket from a health score: getHealthState in PlantSystem.tsx. -/
def getHealthState (health : K) : PlantHealthState :=
  if health ≥ 0.85 then PlantHealthState.thriving
  else if health ≥ 0.65 then PlantHealthState.healthy
  else if health ≥ 0.45 then PlantHealthState.moderate
  else if health ≥ 0.25 then PlantHealthState.poor
  else if health ≥ 0.1 then PlantHealthState.dying
  else PlantHealthState.dead

/-- Linear interpolation, THREE.MathUtils.lerp as used by
calculatePlantColor in PlantSystem.tsx. -/
def lerp (a b t : K) : K := a + (b - a) * t

/-- RGB triple produced by calculatePlantColor.  The source additionally
carries a hex-string rendering of the same three channels; that derived
presentation field is omitted here. -/
structure PlantRGB (K : Type) where
  r : K
  g : K
  b : K
  deriving DecidableEq, Repr

/-- Plant color from a health score, calculatePlantColor in
PlantSystem.tsx: the input is clamped to [0, 1] and then one of five linear
segments is selected. -/
def calculatePlantColor (health0 : K) : PlantRGB K :=
  let health := max 0 (min 1 health0)
  if health ≥ 0.65 then
    let t := (health - 0.65) / 0.35
    ⟨lerp 0.29 0.13 t, lerp 0.69 0.77 t, lerp 0.31 0.37 t⟩
  else if health ≥ 0.45 then
    let t := (health - 0.45) / 0.2
    ⟨lerp 0.65 0.29 t, lerp 0.73 0.69 t, lerp 0.22 0.31 t⟩
  else if health ≥ 0.25 then
    let t := (health - 0.25) / 0.2
    ⟨lerp 0.80 0.65 t, lerp 0.55 0.73 t, lerp 0.20 0.22 t⟩
  else if health ≥ 0.1 then
    let t := (health - 0.1) / 0.15
    ⟨lerp 0.55 0.80 t, lerp 0.35 0.55 t, lerp 0.25 0.20 t⟩
  else
    let t := health / 0.1
    ⟨lerp 0.45 0.55 t, lerp 0.42 0.35 t, lerp 0.40 0.25 t⟩

/-- The linear formula of the segment of calculatePlantColor for health in
[0.65, 1]. -/
def colorSegHealthy (health : K) : PlantRGB K :=
  let t := (health - 0.65) / 0.35
  ⟨lerp 0.29 0.13 t, lerp 0.69 0.77 t, lerp 0.31 0.37 t⟩

/-- The linear formula of the segment of calculatePlantColor for health in
[0.45, 0.65). -/
def colorSegModerate (health : K) : PlantRGB K :=
  let t := (health - 0.45) / 0.2
  ⟨lerp 0.65 0.29 t, lerp 0.73 0.69 t, lerp 0.22 0.31 t⟩

/-- The linear formula of the segment of calculatePlantColor for health in
[0.25, 0.45). -/
def colorSegPoor (health : K) : PlantRGB K :=
  let t := (health - 0.25) / 0.2
  ⟨lerp 0.80 0.65 t, lerp 0.55 0.73 t, lerp 0.20 0.22 t⟩

/-- The linear formula of the segment of calculatePlantColor for health in
[0.1, 0.25). -/
def colorSegDying (health : K) : PlantRGB K :=
  let t := (health - 0.1) / 0.15
  ⟨lerp 0.55 0.80 t, lerp 0.35 0.55 t, lerp 0.25 0.20 t⟩

/-- The linear formula of the segment of calculatePlantColor for health in
[0, 0.1). -/
def colorSegDead (health : K) : PlantRGB K :=
  let t := health / 0.1
  ⟨lerp 0.45 0.55 t, lerp 0.42 0.35 t, lerp 0.40 0.25 t⟩

/-- Per-soil quality score of the terrain scan, the soilQualityMap local
table inside performTerrainScan in the RobotScanner module. -/
def soilQualityMap : SoilType → K
  | SoilType.good => 0.95
  | SoilType.wet => 0.65
  | SoilType.dry => 0.45
  | SoilType.bad => 0.25

/-- Per-soil base water level of the terrain scan, the waterLevelMap local
table inside performTerrainScan in the RobotScanner module. -/
def waterLevelMap : SoilType → K
  | SoilType.wet => 0.9
  | SoilType.good => 0.65
  | SoilType.dry => 0.2
  | SoilType.bad => 0.4

/-- Water availability as claim C2 describes the terrain-scan path:
the base water retention of the soil in the SOIL_QUALITY table, plus a dew bonus
of exactly 0.15 for hours in [6, 9], minus an evaporation penalty of
exactly 0.15 for hours in [11, 15], clamped to [0, 1].  This definition
follows the words of the specification, for comparison against the code. -/
def waterAvailabilityClaimTerrain (soilType : SoilType) (hour : K) : K :=
  let retention := (SOIL_QUALITY soilType).waterRetention
  let dewBonus : K := if 6 ≤ hour ∧ hour ≤ 9 then 0.15 else 0
  let evaporationPenalty : K := if 11 ≤ hour ∧ hour ≤ 15 then 0.15 else 0
  max 0 (min 1 (retention + dewBonus - evaporationPenalty))

end EnvModel

/-- Sun position for an hour of day, getSunPositionFromHour in
SoilZones.tsx.  The components are (x, y, z) with the height in the second
component. -/
noncomputable def getSunPositionFromHour (hour : ℝ) : ℝ × ℝ × ℝ :=
  let normalizedHour := (hour - 6) / 12 * Real.pi
  let y := Real.sin normalizedHour * 100
  let x := Real.cos normalizedHour * 80
  (x, max (-20) y, 30)

/-- Input record of calculatePlantHealth, the EnvironmentalFactors
interface of PlantSystem.tsx.  The optional waterLevel override is an
explicit option. -/
structure EnvironmentalFactors where
  soilType : SoilType
  elevation : ℝ
  hour : ℝ
  waterLevel : Option ℝ

/-- Overall plant health score, calculatePlantHealth in PlantSystem.tsx:
a weighted sum of four piecewise sub-scores, clamped to [0, 1]. -/
noncomputable def calculatePlantHealth (factors : EnvironmentalFactors) : ℝ :=
  let sunPosition := getSunPositionFromHour factors.hour
  let sunY := sunPosition.2.1
  let sunlightExposure := calculateSunlightExposure factors.elevation sunY 1
  let sunlightScore :=
    if sunlightExposure < 0.5 then sunlightExposure * 1.5
    else if sunlightExposure > 1.5 then max 0 (1.5 - (sunlightExposure - 1.5) * 0.5)
    else 0.75 + (sunlightExposure - 0.5) * 0.25
  let water := factors.waterLevel.getD (calculateWaterAvailability factors.soilType factors.hour)
  let waterScore :=
    if water < 0.3 then water * 2
    else if water > 0.9 then max 0.3 (1 - (water - 0.9) * 3)
    else 0.6 + (water - 0.3) * 0.67
  let soilQuality := SOIL_QUALITY factors.soilType
  let soilScore := soilQuality.nutrientLevel * 0.5 + soilQuality.drainageQuality * 0.3 +
    soilQuality.waterRetention * 0.2
  let elevationScore :=
    if factors.elevation < 0.2 then 0.5 + factors.elevation * 2.5
    else if factors.elevation > 0.8 then max 0.4 (1 - (factors.elevation - 0.8) * 3)
    else 0.8 + |0.5 - factors.elevation| * 0.4
  let health := sunlightScore * 0.25 + waterScore * 0.25 + soilScore * 0.30 +
    elevationScore * 0.20
  max 0 (min 1 health)

/-- Terrain scan record, the TerrainScanData interface of the RobotScanner
module. -/
structure TerrainScanData where
  soilType : SoilType
  soilQuality : ℝ
  elevation : ℝ
  sunlightExposure : ℝ
  waterLevel : ℝ
  temperature : ℝ

/-- Terrain scan of a position and hour, performTerrainScan in the
RobotScanner module.  The two sequential water-level adjustments of the
source (morning dew, then midday evaporation) are encoded as two sequential
bindings. -/
noncomputable def performTerrainScan (position : ℝ × ℝ × ℝ) (hour : ℝ) : TerrainScanData :=
  let x := position.1
  let y := position.2.1
  let z := position.2.2
  let soilType := getSoilTypeAtPosition x z
  let elevation := y
  let sunPosition := getSunPositionFromHour hour
  let sunlightExposure := calculateSunlightExposure elevation sunPosition.2.1 1
  let waterLevel0 : ℝ := waterLevelMap soilType
  let waterLevel1 := if 6 ≤ hour ∧ hour ≤ 9 then min 1 (waterLevel0 + 0.1) else waterLevel0
  let waterLevel := if 11 ≤ hour ∧ hour ≤ 15 then max 0 (waterLevel1 - 0.15) else waterLevel1
  let baseTemp := 15 + sunlightExposure * 20
  let elevationCooling := elevation * 5
  let temperature := baseTemp - elevationCooling
  ⟨soilType, soilQualityMap soilType, elevation, sunlightExposure, waterLevel, temperature⟩

/-- Plant scan record, the PlantScanData interface of the RobotScanner
module. -/
structure PlantScanData where
  health : ℝ
  healthState : PlantHealthState
  color : PlantRGB ℝ
  growthPotential : ℝ
  stressFactors : List String

set_option linter.unusedVariables false in
/-- Plant scan built on a terrain scan, performPlantScan in the
RobotScanner module.  The stress-factor pushes of the source are encoded as
concatenation of singleton lists in the same order; the position parameter
is unused, as in the source. -/
noncomputable def performPlantScan (position : ℝ × ℝ × ℝ) (hour : ℝ)
    (terrain : TerrainScanData) : PlantScanData :=
  let health := calculatePlantHealth
    ⟨terrain.soilType, terrain.elevation, hour, some terrain.waterLevel⟩
  let healthState := getHealthState health
  let color := calculatePlantColor health
  let growthPotential := min 1
    (terrain.soilQuality * 0.3 +
     min 1 terrain.sunlightExposure * 0.3 +
     terrain.waterLevel * 0.25 +
     (if 0.2 < terrain.elevation ∧ terrain.elevation < 0.8 then (1:ℝ) else 0.5) * 0.15)
  let stressFactors : List String :=
    (if terrain.sunlightExposure < 0.4 then ["Low sunlight"] else []) ++
    (if terrain.sunlightExposure > 1.5 then ["Excessive sun"] else []) ++
    (if terrain.waterLevel < 0.3 then ["Drought stress"] else []) ++
    (if terrain.waterLevel > 0.85 then ["Waterlogging"] else []) ++
    (if terrain.soilQuality < 0.4 then ["Poor soil"] else []) ++
    (if terrain.temperature > 32 then ["Heat stress"] else []) ++
    (if terrain.temperature < 10 then ["Cold stress"] else [])
  ⟨health, healthState, color, growthPotential, stressFactors⟩

/-- Recommendation strings for a scan, generateRecommendations in the
RobotScanner module, with the fixed check order of the source. -/
noncomputable def generateRecommendations (terrain : TerrainScanData)
    (plant : PlantScanData) : List String :=
  let recommendations : List String :=
    (if terrain.waterLevel < 0.3 then ["Increase irrigation"] else []) ++
    (if terrain.waterLevel > 0.85 then ["Improve drainage"] else []) ++
    (if terrain.sunlightExposure < 0.4 then
      ["Move to higher elevation or wait for better sun angle"] else []) ++
    (if terrain.soilQuality < 0.4 then
      ["Consider soil amendment or relocating to better soil"] else []) ++
    (if plant.health < 0.5 ∧ terrain.soilType = SoilType.bad then
      ["This location is unsuitable for healthy plant growth"] else []) ++
    (if plant.growthPotential > 0.8 then ["Excellent growing conditions!"] else [])
  if recommendations = [] then ["Conditions are adequate for plant growth"]
  else recommendations

/-- Full scan result, the RobotScanResult interface of the RobotScanner
module. -/
structure RobotScanResult where
  timestamp : ℤ
  position : ℝ × ℝ × ℝ
  terrain : TerrainScanData
  plant : PlantScanData
  recommendations : List String

/-- Full scan pipeline, performFullScan in the RobotScanner module.  The
timestamp effect of the source is an explicit argument. -/
noncomputable def performFullScan (now : ℤ) (position : ℝ × ℝ × ℝ) (hour : ℝ) :
    RobotScanResult :=
  let terrain := performTerrainScan position hour
  let plant := performPlantScan position hour terrain
  let recommendations := generateRecommendations terrain plant
  ⟨now, position, terrain, plant, recommendations⟩

/-! Workflow step machine, lib/workflow.ts. -/

/-- Workflow step record, the WorkflowStep interface of lib/workflow.ts. -/
structure WorkflowStep where
  id : String
  title : String
  stepText : String
  path : String
  icon : String
  deriving DecidableEq, Repr

/-- The fixed ordered step list WORKFLOW_STEPS of lib/workflow.ts.  The
third field holds the descriptive text of the step. -/
def WORKFLOW_STEPS : List WorkflowStep :=
  [⟨"placement", "Place Robot", "Position the robot in 3D space", "/3d", "Box"⟩,
   ⟨"upload", "Draw & Upload", "Draw the scene and upload your drawing", "/upload", "Upload"⟩,
   ⟨"verify", "CV Verification", "Review computer vision analysis", "/verify", "Eye"⟩,
   ⟨"coords", "Input Coordinates", "Enter your coordinate predictions", "/coords", "Target"⟩,
   ⟨"predict", "Predict RGB", "Predict the RGB color values", "/predict", "Palette"⟩,
   ⟨"compare", "Compare Results", "Compare your prediction with AI", "/compare", "GitCompare"⟩,
   ⟨"chat", "Tutor Chat", "Discuss with the AI tutor", "/chat", "MessageCircle"⟩]

/-- Index of a step id in the fixed order, getStepIndex in lib/workflow.ts;
findIndex yields -1 for an unknown id. -/
def getStepIndex (stepId : String) : Int :=
  match WORKFLOW_STEPS.findIdx? (fun s => s.id == stepId) with
  | some i => (i : Int)
  | none => -1

/-- Accessibility of a step given the completed list, isStepAccessible in
lib/workflow.ts.  The index loop of the source over all positions strictly below
the target index is encoded as a check over the matching initial segment of the
step list; for a negative target index the loop body never runs. -/
def isStepAccessible (targetStepId : String) (completedSteps : List String) : Bool :=
  let targetIndex := getStepIndex targetStepId
  if targetIndex == 0 then true
  else (WORKFLOW_STEPS.take targetIndex.toNat).all
    (fun s => completedSteps.contains s.id)

/-! Session store, the SessionContext module. -/

/-- Robot coordinate triple, the RobotCoordinates interface of lib/api.ts. -/
structure RobotCoordinates where
  x : ℚ
  y : ℚ
  z : ℚ
  deriving DecidableEq, Repr

/-- RGB color triple, the RGBColor interface of lib/api.ts. -/
structure RGBColor where
  r : ℚ
  g : ℚ
  b : ℚ
  deriving DecidableEq, Repr

/-- Bounding box record of the CVResult interface of lib/api.ts. -/
structure BoundingBox where
  x : ℚ
  y : ℚ
  width : ℚ
  height : ℚ
  deriving DecidableEq, Repr

/-- Computer-vision result, the CVResult interface of lib/api.ts. -/
structure CVResult where
  accuracy : ℚ
  detectedObjects : List String
  boundingBoxes : List BoundingBox
  confidence : ℚ
  deriving DecidableEq, Repr

/-- Chat message author role, from the ChatMessage interface of
lib/api.ts. -/
inductive ChatRole where
  | user
  | assistant
  deriving DecidableEq, Repr

/-- A JavaScript Date value.  The stored JSON form of a timestamp is a
plain string; the loader turns it back into a Date with the Date
constructor, which is modelled as a tagged wrapper of the parsed string so
that the type distinguishes revived time values from raw strings. -/
structure JSDate where
  value : String
  deriving DecidableEq, Repr

/-- The Date constructor applied to a serialized timestamp string. -/
def newDate (s : String) : JSDate := ⟨s⟩

/-- Live chat message, the ChatMessage interface of lib/api.ts. -/
structure ChatMessage where
  role : ChatRole
  content : String
  timestamp : JSDate
  deriving DecidableEq, Repr

/-- Chat message as it sits in the storage slot after JSON serialization:
the timestamp is a string. -/
structure StoredChatMessage where
  role : ChatRole
  content : String
  timestamp : String
  deriving DecidableEq, Repr

/-- Session state, the SessionState interface of the SessionContext
module. -/
structure SessionState where
  studentId : String
  robotCoordinates : RobotCoordinates
  uploadedImage : Option String
  cvResult : Option CVResult
  studentCoordinates : Option RobotCoordinates
  studentRgb : RGBColor
  aiRgb : Option RGBColor
  chatHistory : List ChatMessage
  completedSteps : List String
  currentStep : String
  deriving DecidableEq, Repr

/-- Session actions, the SessionAction union of the SessionContext
module. -/
inductive SessionAction where
  | setStudentId (payload : String)
  | setRobotCoordinates (payload : RobotCoordinates)
  | setUploadedImage (payload : String)
  | setCvResult (payload : CVResult)
  | setStudentCoordinates (payload : RobotCoordinates)
  | setStudentRgb (payload : RGBColor)
  | setAiRgb (payload : RGBColor)
  | addChatMessage (payload : ChatMessage)
  | completeStep (payload : String)
  | setCurrentStep (payload : String)
  | resetSession
  deriving DecidableEq, Repr

/-- The module-level initialState of the SessionContext module.  Its
student id embeds the Date.now() value observed when the module loaded,
passed here explicitly. -/
def initialState (loadTime : ℤ) : SessionState :=
  { studentId := "student_" ++ toString loadTime
    robotCoordinates := ⟨128, 128, 128⟩
    uploadedImage := none
    cvResult := none
    studentCoordinates := none
    studentRgb := ⟨128, 128, 128⟩
    aiRgb := none
    chatHistory := []
    completedSteps := []
    currentStep := "placement" }

/-- The sessionReducer of the SessionContext module.  loadTime is the
Date.now() observed at module load (fixing the initialState the reset
branch spreads), and now is the Date.now() observed when the action is
dispatched. -/
def sessionReducer (loadTime now : ℤ) (state : SessionState)
    (action : SessionAction) : SessionState :=
  match action with
  | SessionAction.setStudentId payload => { state with studentId := payload }
  | SessionAction.setRobotCoordinates payload => { state with robotCoordinates := payload }
  | SessionAction.setUploadedImage payload => { state with uploadedImage := some payload }
  | SessionAction.setCvResult payload => { state with cvResult := some payload }
  | SessionAction.setStudentCoordinates payload => { state with studentCoordinates := some payload }
  | SessionAction.setStudentRgb payload => { state with studentRgb := payload }
  | SessionAction.setAiRgb payload => { state with aiRgb := some payload }
  | SessionAction.addChatMessage payload =>
      { state with chatHistory := state.chatHistory ++ [payload] }
  | SessionAction.completeStep payload =>
      if state.completedSteps.contains payload then state
      else { state with completedSteps := state.completedSteps ++ [payload] }
  | SessionAction.setCurrentStep payload => { state with currentStep := payload }
  | SessionAction.resetSession =>
      { initialState loadTime with studentId := "student_" ++ toString now }

/-- Stored session object as JSON.parse can deliver it: every field may be
absent (the outer option); fields that are nullable in SessionState keep
their inner option, and chat messages carry string timestamps. -/
structure ParsedSession where
  studentId : Option String
  robotCoordinates : Option RobotCoordinates
  uploadedImage : Option (Option String)
  cvResult : Option (Option CVResult)
  studentCoordinates : Option (Option RobotCoordinates)
  studentRgb : Option RGBColor
  aiRgb : Option (Option RGBColor)
  chatHistory : Option (List StoredChatMessage)
  completedSteps : Option (List String)
  currentStep : Option String
  deriving DecidableEq, Repr

/-- Timestamp revival of one stored chat message, the map body inside the
SessionProvider loading step. -/
def reviveChatMessage (m : StoredChatMessage) : ChatMessage :=
  ⟨m.role, m.content, newDate m.timestamp⟩

/-- The useReducer loading step of SessionProvider: stored is none when the
storage slot is empty, some (Except.error ()) when the stored string fails
JSON.parse (the catch branch), and some (Except.ok parsed) on a successful
parse, in which case chat timestamps are revived and the parsed object is
shallow-merged over the defaults. -/
def loadStoredSession (initial : SessionState)
    (stored : Option (Except Unit ParsedSession)) : SessionState :=
  match stored with
  | none => initial
  | some (Except.error _) => initial
  | some (Except.ok parsed) =>
      { studentId := parsed.studentId.getD initial.studentId
        robotCoordinates := parsed.robotCoordinates.getD initial.robotCoordinates
        uploadedImage := parsed.uploadedImage.getD initial.uploadedImage
        cvResult := parsed.cvResult.getD initial.cvResult
        studentCoordinates := parsed.studentCoordinates.getD initial.studentCoordinates
        studentRgb := parsed.studentRgb.getD initial.studentRgb
        aiRgb := parsed.aiRgb.getD initial.aiRgb
        chatHistory := (parsed.chatHistory.map
          (fun msgs => msgs.map reviveChatMessage)).getD initial.chatHistory
        completedSteps := parsed.completedSteps.getD initial.completedSteps
        currentStep := parsed.currentStep.getD initial.currentStep }

/-- The list of the seven workflow step ids in their fixed order. -/
def stepIds : List String := WORKFLOW_STEPS.map WorkflowStep.id

/-- A concrete populated session state used by closed instances of the
session claims. -/
def populatedSession : SessionState :=
  { studentId := "student_42"
    robotCoordinates := ⟨200, 30, 96⟩
    uploadedImage := some "blob:drawing"
    cvResult := some ⟨87, ["cube"], [⟨10, 20, 30, 40⟩], 92⟩
    studentCoordinates := some ⟨199, 31, 95⟩
    studentRgb := ⟨200, 30, 96⟩
    aiRgb := some ⟨199, 31, 95⟩
    chatHistory := [⟨ChatRole.user, "hello", ⟨"2024-01-01T00:00:00.000Z"⟩⟩]
    completedSteps := ["placement", "upload"]
    currentStep := "verify" }

/-! Theorems. -/

/-- C3: for every target step in the fixed seven-step workflow order and
every list of completed step ids, isStepAccessible returns true exactly
when every step strictly before the target in the fixed order is in the
completed list, the first step being always accessible; in particular the
compare step is inaccessible with nothing completed, accessible once the
five steps before it are completed, and the placement step is accessible
with nothing completed. -/
theorem c3_step_accessibility :
    (∀ target ∈ stepIds, ∀ completedSteps : List String,
      (isStepAccessible target completedSteps = true ↔
        ∀ prior ∈ stepIds.take (stepIds.indexOf target), prior ∈ completedSteps)) ∧
    (∀ completedSteps : List String, isStepAccessible "placement" completedSteps = true) ∧
    isStepAccessible "compare" [] = false ∧
    isStepAccessible "compare" ["placement", "upload", "verify", "coords", "predict"] = true ∧
    isStepAccessible "placement" [] = true := by
  refine ⟨?_, ?_, by decide, by decide, by decide⟩
  · intro target htarget completedSteps
    have h7 : target = "placement" ∨ target = "upload" ∨ target = "verify" ∨
        target = "coords" ∨ target = "predict" ∨ target = "compare" ∨ target = "chat" := by
      simpa [stepIds, WORKFLOW_STEPS] using htarget
    rcases h7 with rfl | rfl | rfl | rfl | rfl | rfl | rfl <;>
      simp [isStepAccessible, getStepIndex, stepIds, WORKFLOW_STEPS, List.findIdx?,
        List.all_eq_true]
  · intro completedSteps
    simp [isStepAccessible, getStepIndex, WORKFLOW_STEPS, List.findIdx?]

/-- Closed instance of c3_step_accessibility with its hypotheses
discharged at the coords step. -/
theorem c3_step_accessibility_witness :
    isStepAccessible "coords" ["placement", "upload", "verify"] = true ↔
      ∀ prior ∈ stepIds.take (stepIds.indexOf "coords"),
        prior ∈ ["placement", "upload", "verify"] :=
  c3_step_accessibility.1 "coords" (by decide) ["placement", "upload", "verify"]

/-- C10: a step id that is not one of the seven workflow step ids gets
index -1 from getStepIndex, and isStepAccessible reports it accessible for
every completed list: the first-step check fails, the prior-step loop is
vacuous, and the function falls through to true. -/
theorem c10_unknown_step_accessible (stepId : String) (h : stepId ∉ stepIds)
    (completedSteps : List String) :
    getStepIndex stepId = -1 ∧ isStepAccessible stepId completedSteps = true := by
  have hidx : getStepIndex stepId = -1 := by
    simp only [stepIds, WORKFLOW_STEPS, List.map, List.mem_cons, List.not_mem_nil,
      or_false] at h
    push_neg at h
    obtain ⟨h1, h2, h3, h4, h5, h6, h7⟩ := h
    simp [getStepIndex, WORKFLOW_STEPS, List.findIdx?, Ne.symm h1, Ne.symm h2,
      Ne.symm h3, Ne.symm h4, Ne.symm h5, Ne.symm h6, Ne.symm h7]
  exact ⟨hidx, by simp [isStepAccessible, hidx]⟩

/-- Closed instance of c10_unknown_step_accessible at an id outside the
workflow. -/
theorem c10_unknown_step_accessible_witness :
    getStepIndex "review" = -1 ∧ isStepAccessible "review" [] = true :=
  c10_unknown_step_accessible "review" (by decide) []

/-- C4 counterexample: a populated session whose student id happens to be
the time-based token of the reset instant keeps the same student id across
a reset, so the reset student id does not always differ from the pre-reset
one. -/
theorem c4_reset_counterexample :
    (sessionReducer 0 42 populatedSession SessionAction.resetSession).studentId
      = populatedSession.studentId := by decide

/-- C4 as amended: resetting any session empties completedSteps, puts the
cursor back on the placement step (the first workflow step id), and sets
the student id to the time-based token of the reset instant; that token
differs from the pre-reset student id whenever the pre-reset id is not
itself the token of the reset instant. -/
theorem c4_reset_session (loadTime now : ℤ) (state : SessionState) :
    (sessionReducer loadTime now state SessionAction.resetSession).completedSteps = [] ∧
    (sessionReducer loadTime now state SessionAction.resetSession).currentStep = "placement" ∧
    stepIds.head? = some "placement" ∧
    (sessionReducer loadTime now state SessionAction.resetSession).studentId
      = "student_" ++ toString now ∧
    (state.studentId ≠ "student_" ++ toString now →
      (sessionReducer loadTime now state SessionAction.resetSession).studentId
        ≠ state.studentId) := by
  refine ⟨rfl, rfl, by decide, rfl, fun h => ?_⟩
  simpa [sessionReducer, initialState] using fun hc => h hc.symm

/-- Closed instance of c4_reset_session at a reset time whose token
differs from the stored student id. -/
theorem c4_reset_session_witness :
    (sessionReducer 0 7 populatedSession SessionAction.resetSession).studentId
      ≠ populatedSession.studentId :=
  (c4_reset_session 0 7 populatedSession).2.2.2.2 (by decide)

/-- C5: completing a step has set semantics: a second completion of the
same id is the identity, the completed list is unchanged when the id is
already present and otherwise gets the id appended at the end (so the
order of previously completed entries never changes), and when the
completed list held no duplicates it still holds none afterwards and the
id occurs exactly once. -/
theorem c5_complete_step_set_semantics (loadTime n1 n2 : ℤ) (state : SessionState)
    (stepId : String) :
    sessionReducer loadTime n2
        (sessionReducer loadTime n1 state (SessionAction.completeStep stepId))
        (SessionAction.completeStep stepId)
      = sessionReducer loadTime n1 state (SessionAction.completeStep stepId) ∧
    (sessionReducer loadTime n1 state (SessionAction.completeStep stepId)).completedSteps
      = (if stepId ∈ state.completedSteps then state.completedSteps
         else state.completedSteps ++ [stepId]) ∧
    (state.completedSteps.Nodup →
      (sessionReducer loadTime n1 state
        (SessionAction.completeStep stepId)).completedSteps.Nodup ∧
      (sessionReducer loadTime n1 state
        (SessionAction.completeStep stepId)).completedSteps.count stepId = 1) := by
  by_cases hmem : stepId ∈ state.completedSteps
  · refine ⟨?_, ?_, fun hnd => ⟨?_, ?_⟩⟩
    · simp [sessionReducer, hmem]
    · simp [sessionReducer, hmem]
    · simpa [sessionReducer, hmem] using hnd
    · simpa [sessionReducer, hmem] using List.count_eq_one_of_mem hnd hmem
  · refine ⟨?_, ?_, fun hnd => ⟨?_, ?_⟩⟩
    · simp [sessionReducer, hmem]
    · simp [sessionReducer, hmem]
    · simp [sessionReducer, hmem, List.nodup_append, hnd, List.disjoint_singleton]
    · simp [sessionReducer, hmem, List.count_append, List.count_eq_zero.mpr hmem]

/-- Closed instance of c5_complete_step_set_semantics on a concrete
populated session, with the no-duplicates hypothesis discharged. -/
theorem c5_complete_step_witness :
    (sessionReducer 0 2
        (sessionReducer 0 1 populatedSession (SessionAction.completeStep "verify"))
        (SessionAction.completeStep "verify")
      = sessionReducer 0 1 populatedSession (SessionAction.completeStep "verify")) ∧
    (sessionReducer 0 1 populatedSession
      (SessionAction.completeStep "verify")).completedSteps.count "verify" = 1 :=
  ⟨(c5_complete_step_set_semantics 0 1 2 populatedSession "verify").1,
   ((c5_complete_step_set_semantics 0 1 2 populatedSession "verify").2.2 (by decide)).2⟩

/-- C9: loading the session from storage is a total function that yields
the defaults when the storage slot is empty or the stored string fails to
parse, keeps the default value of every field the parsed object lacks, and
revives every chat message timestamp from its serialized string into a
Date value built by the Date constructor. -/
theorem c9_load_stored_session (initial : SessionState) :
    loadStoredSession initial none = initial ∧
    loadStoredSession initial (some (Except.error ())) = initial ∧
    (∀ parsed : ParsedSession,
      (parsed.studentId = none →
        (loadStoredSession initial (some (Except.ok parsed))).studentId
          = initial.studentId) ∧
      (parsed.robotCoordinates = none →
        (loadStoredSession initial (some (Except.ok parsed))).robotCoordinates
          = initial.robotCoordinates) ∧
      (parsed.uploadedImage = none →
        (loadStoredSession initial (some (Except.ok parsed))).uploadedImage
          = initial.uploadedImage) ∧
      (parsed.cvResult = none →
        (loadStoredSession initial (some (Except.ok parsed))).cvResult
          = initial.cvResult) ∧
      (parsed.studentCoordinates = none →
        (loadStoredSession initial (some (Except.ok parsed))).studentCoordinates
          = initial.studentCoordinates) ∧
      (parsed.studentRgb = none →
        (loadStoredSession initial (some (Except.ok parsed))).studentRgb
          = initial.studentRgb) ∧
      (parsed.aiRgb = none →
        (loadStoredSession initial (some (Except.ok parsed))).aiRgb
          = initial.aiRgb) ∧
      (parsed.chatHistory = none →
        (loadStoredSession initial (some (Except.ok parsed))).chatHistory
          = initial.chatHistory) ∧
      (parsed.completedSteps = none →
        (loadStoredSession initial (some (Except.ok parsed))).completedSteps
          = initial.completedSteps) ∧
      (parsed.currentStep = none →
        (loadStoredSession initial (some (Except.ok parsed))).currentStep
          = initial.currentStep) ∧
      (∀ msgs, parsed.chatHistory = some msgs →
        (loadStoredSession initial (some (Except.ok parsed))).chatHistory
          = msgs.map (fun m => ⟨m.role, m.content, newDate m.timestamp⟩))) := by
  refine ⟨rfl, rfl, fun parsed => ?_⟩
  refine ⟨fun h => ?_, fun h => ?_, fun h => ?_, fun h => ?_, fun h => ?_, fun h => ?_,
    fun h => ?_, fun h => ?_, fun h => ?_, fun h => ?_, fun msgs h => ?_⟩ <;>
    simp [loadStoredSession, reviveChatMessage, h]

/-- Closed instance of c9_load_stored_session: a stored object that only
carries a chat history keeps every default student id and gets its
timestamps revived. -/
theorem c9_load_stored_session_witness :
    (loadStoredSession (initialState 0) (some (Except.ok
      ⟨none, none, none, none, none, none, none,
       some [⟨ChatRole.user, "hello", "2024-01-01T00:00:00.000Z"⟩], none, none⟩))).studentId
      = (initialState 0).studentId ∧
    (loadStoredSession (initialState 0) (some (Except.ok
      ⟨none, none, none, none, none, none, none,
       some [⟨ChatRole.user, "hello", "2024-01-01T00:00:00.000Z"⟩], none, none⟩))).chatHistory
      = [⟨ChatRole.user, "hello", newDate "2024-01-01T00:00:00.000Z"⟩] :=
  ⟨((c9_load_stored_session (initialState 0)).2.2
      ⟨none, none, none, none, none, none, none,
       some [⟨ChatRole.user, "hello", "2024-01-01T00:00:00.000Z"⟩], none, none⟩).1 rfl,
   ((c9_load_stored_session (initialState 0)).2.2
      ⟨none, none, none, none, none, none, none,
       some [⟨ChatRole.user, "hello", "2024-01-01T00:00:00.000Z"⟩], none, none⟩).2.2.2.2.2.2.2.2.2.2
     [⟨ChatRole.user, "hello", "2024-01-01T00:00:00.000Z"⟩] rfl⟩

/-- C7: soil classification is the deterministic quadrant partition about
the center (0.5, 0.5), with the tie-break on the center lines sending
x below 0.5 and z below 0.5 to wet, x at least 0.5 and z below 0.5 to dry,
x below 0.5 and z at least 0.5 to good, and both at least 0.5 to bad; the
four canonical fixtures classify accordingly. -/
theorem c7_soil_quadrants :
    (∀ x z : ℝ,
      (getSoilTypeAtPosition x z = SoilType.wet ↔ x < 0.5 ∧ z < 0.5) ∧
      (getSoilTypeAtPosition x z = SoilType.dry ↔ 0.5 ≤ x ∧ z < 0.5) ∧
      (getSoilTypeAtPosition x z = SoilType.good ↔ x < 0.5 ∧ 0.5 ≤ z) ∧
      (getSoilTypeAtPosition x z = SoilType.bad ↔ 0.5 ≤ x ∧ 0.5 ≤ z)) ∧
    getSoilTypeAtPosition (0.4:ℝ) 0.4 = SoilType.wet ∧
    getSoilTypeAtPosition (0.6:ℝ) 0.4 = SoilType.dry ∧
    getSoilTypeAtPosition (0.4:ℝ) 0.6 = SoilType.good ∧
    getSoilTypeAtPosition (0.6:ℝ) 0.6 = SoilType.bad := by
  constructor
  · intro x z
    by_cases hx : x < 0.5 <;> by_cases hz : z < 0.5 <;>
      simp [getSoilTypeAtPosition, hx, hz, not_lt.mp, le_of_not_lt]
  · refine ⟨?_, ?_, ?_, ?_⟩ <;> norm_num [getSoilTypeAtPosition]

/-- Closed instance of c7_soil_quadrants: the characterization resolves a
concrete position in the good quadrant. -/
theorem c7_soil_quadrants_witness :
    getSoilTypeAtPosition (0.3:ℝ) 0.7 = SoilType.good :=
  ((c7_soil_quadrants.1 0.3 0.7).2.2.1).mpr ⟨by norm_num, by norm_num⟩

/-- C8: calculatePlantColor clamps its input to [0, 1] and is the
five-segment piecewise-linear function with boundaries 0.1, 0.25, 0.45 and
0.65: on each segment it agrees with the linear formula of that segment, and at
each boundary the linear formula of the segment below, evaluated at the
boundary, equals the value calculatePlantColor takes there through the
segment above, so the interpolation is continuous at every boundary. -/
theorem c8_plant_color_segments :
    (∀ h : ℚ, 0 ≤ h → h < 0.1 → calculatePlantColor h = colorSegDead h) ∧
    (∀ h : ℚ, 0.1 ≤ h → h < 0.25 → calculatePlantColor h = colorSegDying h) ∧
    (∀ h : ℚ, 0.25 ≤ h → h < 0.45 → calculatePlantColor h = colorSegPoor h) ∧
    (∀ h : ℚ, 0.45 ≤ h → h < 0.65 → calculatePlantColor h = colorSegModerate h) ∧
    (∀ h : ℚ, 0.65 ≤ h → h ≤ 1 → calculatePlantColor h = colorSegHealthy h) ∧
    colorSegDead (0.1:ℚ) = calculatePlantColor (0.1:ℚ) ∧
    colorSegDying (0.25:ℚ) = calculatePlantColor (0.25:ℚ) ∧
    colorSegPoor (0.45:ℚ) = calculatePlantColor (0.45:ℚ) ∧
    colorSegModerate (0.65:ℚ) = calculatePlantColor (0.65:ℚ) ∧
    (∀ h : ℚ, calculatePlantColor h = calculatePlantColor (max 0 (min 1 h))) := by
  refine ⟨fun h h0 h1 => ?_, fun h h0 h1 => ?_, fun h h0 h1 => ?_, fun h h0 h1 => ?_,
    fun h h0 h1 => ?_, ?_, ?_, ?_, ?_, fun h => ?_⟩
  · have hc : max 0 (min 1 h) = h := by
      rw [min_eq_right (by linarith), max_eq_right (by linarith)]
    simp only [calculatePlantColor, hc, colorSegDead,
      if_neg (not_le.mpr (show h < (0.65:ℚ) by linarith)),
      if_neg (not_le.mpr (show h < (0.45:ℚ) by linarith)),
      if_neg (not_le.mpr (show h < (0.25:ℚ) by linarith)),
      if_neg (not_le.mpr (show h < (0.1:ℚ) by linarith))]
  · have hc : max 0 (min 1 h) = h := by
      rw [min_eq_right (by linarith), max_eq_right (by linarith)]
    simp only [calculatePlantColor, hc, colorSegDying,
      if_neg (not_le.mpr (show h < (0.65:ℚ) by linarith)),
      if_neg (not_le.mpr (show h < (0.45:ℚ) by linarith)),
      if_neg (not_le.mpr (show h < (0.25:ℚ) by linarith)),
      if_pos (show h ≥ (0.1:ℚ) from h0)]
  · have hc : max 0 (min 1 h) = h := by
      rw [min_eq_right (by linarith), max_eq_right (by linarith)]
    simp only [calculatePlantColor, hc, colorSegPoor,
      if_neg (not_le.mpr (show h < (0.65:ℚ) by linarith)),
      if_neg (not_le.mpr (show h < (0.45:ℚ) by linarith)),
      if_pos (show h ≥ (0.25:ℚ) from h0)]
  · have hc : max 0 (min 1 h) = h := by
      rw [min_eq_right (by linarith), max_eq_right (by linarith)]
    simp only [calculatePlantColor, hc, colorSegModerate,
      if_neg (not_le.mpr (show h < (0.65:ℚ) by linarith)),
      if_pos (show h ≥ (0.45:ℚ) from h0)]
  · have hc : max 0 (min 1 h) = h := by
      rw [min_eq_right h1, max_eq_right (by linarith)]
    simp only [calculatePlantColor, hc, colorSegHealthy,
      if_pos (show h ≥ (0.65:ℚ) from h0)]
  · norm_num [calculatePlantColor, colorSegDead, colorSegDying, lerp]
  · norm_num [calculatePlantColor, colorSegDying, colorSegPoor, lerp]
  · norm_num [calculatePlantColor, colorSegPoor, colorSegModerate, lerp]
  · norm_num [calculatePlantColor, colorSegModerate, colorSegHealthy, lerp]
  · have hlo : (0:ℚ) ≤ max 0 (min 1 h) := le_max_left 0 _
    have hhi : max 0 (min 1 h) ≤ 1 := max_le (by norm_num) (min_le_left 1 h)
    have hc : max 0 (min 1 (max 0 (min 1 h))) = max 0 (min 1 h) := by
      rw [min_eq_right hhi, max_eq_right hlo]
    simp only [calculatePlantColor, hc]

/-- Closed instance of c8_plant_color_segments in the interior of the
moderate segment. -/
theorem c8_plant_color_segments_witness :
    calculatePlantColor (0.5:ℚ) = colorSegModerate (0.5:ℚ) :=
  c8_plant_color_segments.2.2.2.1 0.5 (by norm_num) (by norm_num)

/-- C6: with the default base intensity 1, calculateSunlightExposure is
non-decreasing in the elevation over [0, 1] at every non-negative sun
height, non-decreasing in the sun height over the non-negative heights,
and its value lies in [0.1, 2] for all real inputs. -/
theorem c6_sunlight_exposure_monotone_bounded :
    (∀ e1 e2 s : ℝ, 0 ≤ e1 → e1 ≤ e2 → e2 ≤ 1 → 0 ≤ s →
      calculateSunlightExposure e1 s 1 ≤ calculateSunlightExposure e2 s 1) ∧
    (∀ e s1 s2 : ℝ, 0 ≤ e → e ≤ 1 → 0 ≤ s1 → s1 ≤ s2 →
      calculateSunlightExposure e s1 1 ≤ calculateSunlightExposure e s2 1) ∧
    (∀ e s : ℝ, 0.1 ≤ calculateSunlightExposure e s 1 ∧
      calculateSunlightExposure e s 1 ≤ 2) := by
  refine ⟨fun e1 e2 s he1 he12 he2 hs => ?_, fun e s1 s2 he0 he1 hs1 hs12 => ?_,
    fun e s => ⟨?_, ?_⟩⟩
  · simp only [calculateSunlightExposure]
    refine min_le_min le_rfl (max_le_max le_rfl ?_)
    have hm : (0:ℝ) ≤ max 0 (s / 100) := le_max_left 0 _
    nlinarith [mul_nonneg (sub_nonneg.mpr he12) hm]
  · simp only [calculateSunlightExposure]
    refine min_le_min le_rfl (max_le_max le_rfl ?_)
    have hm12 : max 0 (s1 / 100) ≤ max 0 (s2 / 100) :=
      max_le_max le_rfl (by linarith)
    nlinarith [mul_nonneg (show (0:ℝ) ≤ 1 + e * 0.4 by linarith)
      (sub_nonneg.mpr hm12)]
  · simp only [calculateSunlightExposure]
    exact le_min (by norm_num) (le_max_left _ _)
  · simp only [calculateSunlightExposure]
    exact min_le_left _ _

/-- Closed instance of c6_sunlight_exposure_monotone_bounded at concrete
elevations and sun heights. -/
theorem c6_sunlight_exposure_witness :
    calculateSunlightExposure (0:ℝ) 50 1 ≤ calculateSunlightExposure 1 50 1 ∧
    calculateSunlightExposure (0.5:ℝ) 0 1 ≤ calculateSunlightExposure 0.5 100 1 ∧
    0.1 ≤ calculateSunlightExposure (0.3:ℝ) 70 1 ∧
    calculateSunlightExposure (0.3:ℝ) 70 1 ≤ 2 :=
  ⟨c6_sunlight_exposure_monotone_bounded.1 0 1 50 le_rfl (by norm_num) le_rfl
      (by norm_num),
   c6_sunlight_exposure_monotone_bounded.2.1 0.5 0 100 (by norm_num) (by norm_num)
      le_rfl (by norm_num),
   (c6_sunlight_exposure_monotone_bounded.2.2 0.3 70).1,
   (c6_sunlight_exposure_monotone_bounded.2.2 0.3 70).2⟩

/-- C2 counterexample: at hour 7 (dew window) on good soil the
terrain-scan water level is 0.75, while the value the claim assigns to the
terrain-scan path (base water retention of the SOIL_QUALITY table plus a
dew bonus of exactly 0.15) is 0.85, so the claim fails on the
terrain-scan path. -/
theorem c2_water_availability_counterexample :
    (performTerrainScan (0.4, 0.5, 0.6) 7).waterLevel = 0.75 ∧
    waterAvailabilityClaimTerrain SoilType.good (7:ℝ) = 0.85 ∧
    (performTerrainScan (0.4, 0.5, 0.6) 7).waterLevel
      ≠ waterAvailabilityClaimTerrain SoilType.good (7:ℝ) := by
  refine ⟨?_, ?_, ?_⟩ <;>
    norm_num [performTerrainScan, getSoilTypeAtPosition, waterLevelMap,
      SOIL_QUALITY, waterAvailabilityClaimTerrain]

/-- C2 as amended: in the plant-health path water availability is the
base water retention of the soil in the SOIL_QUALITY table plus a dew bonus of
exactly 0.15 for hours in [6, 9] and minus an evaporation penalty of
exactly 0.2 for hours in [11, 15], clamped to [0, 1]; in the terrain-scan
path the base comes from the dedicated water-level table of the scan, the dew bonus
is exactly 0.1 (clamped above at 1) and the evaporation penalty is exactly
0.15 (clamped below at 0); both paths always yield a value in [0, 1]. -/
theorem c2_water_availability (soil : SoilType) (hour x y z : ℝ) :
    (6 ≤ hour ∧ hour ≤ 9 →
      calculateWaterAvailability soil hour
        = max 0 (min 1 ((SOIL_QUALITY soil).waterRetention + 0.15))) ∧
    (11 ≤ hour ∧ hour ≤ 15 →
      calculateWaterAvailability soil hour
        = max 0 (min 1 ((SOIL_QUALITY soil).waterRetention - 0.2))) ∧
    (¬(6 ≤ hour ∧ hour ≤ 9) → ¬(11 ≤ hour ∧ hour ≤ 15) →
      calculateWaterAvailability soil hour
        = max 0 (min 1 ((SOIL_QUALITY soil).waterRetention))) ∧
    0 ≤ calculateWaterAvailability soil hour ∧
    calculateWaterAvailability soil hour ≤ 1 ∧
    (6 ≤ hour ∧ hour ≤ 9 →
      (performTerrainScan (x, y, z) hour).waterLevel
        = min 1 (waterLevelMap (getSoilTypeAtPosition x z) + 0.1)) ∧
    (11 ≤ hour ∧ hour ≤ 15 →
      (performTerrainScan (x, y, z) hour).waterLevel
        = max 0 (waterLevelMap (getSoilTypeAtPosition x z) - 0.15)) ∧
    (¬(6 ≤ hour ∧ hour ≤ 9) → ¬(11 ≤ hour ∧ hour ≤ 15) →
      (performTerrainScan (x, y, z) hour).waterLevel
        = waterLevelMap (getSoilTypeAtPosition x z)) ∧
    0 ≤ (performTerrainScan (x, y, z) hour).waterLevel ∧
    (performTerrainScan (x, y, z) hour).waterLevel ≤ 1 := by
  have hw : 0.2 ≤ (waterLevelMap (getSoilTypeAtPosition x z) : ℝ) ∧
      (waterLevelMap (getSoilTypeAtPosition x z) : ℝ) ≤ 0.9 := by
    cases getSoilTypeAtPosition x z <;> norm_num [waterLevelMap]
  refine ⟨fun hdew => ?_, fun hevap => ?_, fun hnd hne => ?_, ?_, ?_,
    fun hdew => ?_, fun hevap => ?_, fun hnd hne => ?_, ?_, ?_⟩
  · have hne : ¬(11 ≤ hour ∧ hour ≤ 15) := fun hc => by linarith [hdew.2, hc.1]
    simp only [calculateWaterAvailability, if_pos hdew, if_neg hne]
    norm_num
  · have hnd : ¬(6 ≤ hour ∧ hour ≤ 9) := fun hc => by linarith [hevap.1, hc.2]
    simp only [calculateWaterAvailability, if_pos hevap, if_neg hnd]
    norm_num
  · simp only [calculateWaterAvailability, if_neg hnd, if_neg hne]
    norm_num
  · simp only [calculateWaterAvailability]
    exact le_max_left _ _
  · simp only [calculateWaterAvailability]
    exact max_le (by norm_num) (min_le_left _ _)
  · have hne : ¬(11 ≤ hour ∧ hour ≤ 15) := fun hc => by linarith [hdew.2, hc.1]
    simp only [performTerrainScan, if_pos hdew, if_neg hne]
  · have hnd : ¬(6 ≤ hour ∧ hour ≤ 9) := fun hc => by linarith [hevap.1, hc.2]
    simp only [performTerrainScan, if_pos hevap, if_neg hnd]
  · simp only [performTerrainScan, if_neg hnd, if_neg hne]
  · simp only [performTerrainScan]
    by_cases hdew : 6 ≤ hour ∧ hour ≤ 9
    · have hne : ¬(11 ≤ hour ∧ hour ≤ 15) := fun hc => by linarith [hdew.2, hc.1]
      rw [if_pos hdew, if_neg hne]
      exact le_min (by norm_num) (by linarith [hw.1])
    · rw [if_neg hdew]
      by_cases hevap : 11 ≤ hour ∧ hour ≤ 15
      · rw [if_pos hevap]
        exact le_max_left _ _
      · rw [if_neg hevap]
        linarith [hw.1]
  · simp only [performTerrainScan]
    by_cases hdew : 6 ≤ hour ∧ hour ≤ 9
    · have hne : ¬(11 ≤ hour ∧ hour ≤ 15) := fun hc => by linarith [hdew.2, hc.1]
      rw [if_pos hdew, if_neg hne]
      exact min_le_left _ _
    · rw [if_neg hdew]
      by_cases hevap : 11 ≤ hour ∧ hour ≤ 15
      · rw [if_pos hevap]
        exact max_le (by norm_num) (by linarith [hw.2])
      · rw [if_neg hevap]
        linarith [hw.2]

/-- Closed instance of c2_water_availability in the midday evaporation
window. -/
theorem c2_water_availability_witness :
    calculateWaterAvailability SoilType.wet (12:ℝ)
      = max 0 (min 1 ((SOIL_QUALITY SoilType.wet).waterRetention - 0.2)) ∧
    (performTerrainScan (0.4, 0.5, 0.6) 12).waterLevel
      = max 0 (waterLevelMap (getSoilTypeAtPosition (0.4:ℝ) 0.6) - 0.15) :=
  ⟨(c2_water_availability SoilType.wet 12 0.4 0.5 0.6).2.1 (by norm_num),
   (c2_water_availability SoilType.wet 12 0.4 0.5 0.6).2.2.2.2.2.2.1 (by norm_num)⟩

/-- The hour-13 sun angle lies in [0, pi], so its sine is non-negative. -/
lemma sinHour13_nonneg : 0 ≤ Real.sin (((13:ℝ) - 6) / 12 * Real.pi) := by
  apply Real.sin_nonneg_of_nonneg_of_le_pi
  · nlinarith [Real.pi_pos]
  · nlinarith [Real.pi_pos]

/-- Sun height at hour 13: the negative clamp is inactive. -/
lemma sunPos13 : (getSunPositionFromHour 13).2.1
    = Real.sin (((13:ℝ) - 6) / 12 * Real.pi) * 100 := by
  simp only [getSunPositionFromHour]
  exact max_eq_right (by nlinarith [sinHour13_nonneg])

/-- Sunlight exposure at elevation 0.5 for a sun height 100 s with s in
[0, 1]: both clamps are inactive. -/
lemma sunExposure_half (s : ℝ) (h0 : 0 ≤ s) (h1 : s ≤ 1) :
    calculateSunlightExposure 0.5 (s * 100) 1 = 0.6 + 0.6 * s := by
  simp only [calculateSunlightExposure]
  have e1 : s * 100 / 100 = s := by ring
  rw [e1, max_eq_right h0]
  simp only [min_def, max_def]
  split_ifs <;> linarith

/-- Soil type of the terrain scan at the C1 fixture. -/
lemma terrainScan_fixture_soilType :
    (performTerrainScan (0.6, 0.5, 0.6) 13).soilType = SoilType.bad := by
  norm_num [performTerrainScan, getSoilTypeAtPosition]

/-- Elevation of the terrain scan at the C1 fixture. -/
lemma terrainScan_fixture_elevation :
    (performTerrainScan (0.6, 0.5, 0.6) 13).elevation = 0.5 := by
  norm_num [performTerrainScan, getSoilTypeAtPosition]

/-- Water level of the terrain scan at the C1 fixture: bad soil starts at
0.4 and the midday evaporation window subtracts 0.15. -/
lemma terrainScan_fixture_waterLevel :
    (performTerrainScan (0.6, 0.5, 0.6) 13).waterLevel = 0.25 := by
  norm_num [performTerrainScan, getSoilTypeAtPosition, waterLevelMap, max_def]

/-- Closed form of the plant health at the C1 fixture factors. -/
lemma plantHealth_fixture :
    calculatePlantHealth ⟨SoilType.bad, 0.5, 13, some 0.25⟩
      = 0.57775 + 0.0375 * Real.sin (((13:ℝ) - 6) / 12 * Real.pi) := by
  have h0 := sinHour13_nonneg
  have h1 := Real.sin_le_one (((13:ℝ) - 6) / 12 * Real.pi)
  simp only [calculatePlantHealth, SOIL_QUALITY, Option.getD, sub_self, abs_zero]
  rw [sunPos13, sunExposure_half _ h0 h1]
  set s := Real.sin (((13:ℝ) - 6) / 12 * Real.pi) with hs
  have c1 : ¬(0.6 + 0.6 * s < 0.5) := not_lt.mpr (by nlinarith)
  have c2 : ¬(0.6 + 0.6 * s > 1.5) := not_lt.mpr (by nlinarith)
  have c3 : (0.25:ℝ) < 0.3 := by norm_num
  have c4 : ¬((0.5:ℝ) < 0.2) := by norm_num
  have c5 : ¬((0.5:ℝ) > 0.8) := by norm_num
  rw [if_neg c1, if_neg c2, if_pos c3, if_neg c4, if_neg c5]
  simp only [min_def, max_def]
  split_ifs <;> linarith

/-- Health reported by the full scan at the C1 fixture, in closed form. -/
lemma fullScan_fixture_health :
    (performFullScan 0 (0.6, 0.5, 0.6) 13).plant.health
      = 0.57775 + 0.0375 * Real.sin (((13:ℝ) - 6) / 12 * Real.pi) := by
  have h : (performFullScan 0 (0.6, 0.5, 0.6) 13).plant.health
      = calculatePlantHealth ⟨(performTerrainScan (0.6, 0.5, 0.6) 13).soilType,
          (performTerrainScan (0.6, 0.5, 0.6) 13).elevation, 13,
          some (performTerrainScan (0.6, 0.5, 0.6) 13).waterLevel⟩ := rfl
  rw [h, terrainScan_fixture_soilType, terrainScan_fixture_elevation,
    terrainScan_fixture_waterLevel, plantHealth_fixture]

/-- C1 counterexample: at position (0.6, 0.5, 0.6) and hour 13 the full
plant health of the scan is at least 0.57775, so it does not lie in the claimed
interval [0.1, 0.45). -/
theorem c1_full_scan_counterexample :
    ¬(0.1 ≤ (performFullScan 0 (0.6, 0.5, 0.6) 13).plant.health ∧
      (performFullScan 0 (0.6, 0.5, 0.6) 13).plant.health < 0.45) := by
  rw [fullScan_fixture_health]
  rintro ⟨-, hlt⟩
  nlinarith [sinHour13_nonneg]

/-- C1 as amended: at position (0.6, 0.5, 0.6) and hour 13 the full scan
classifies the soil as bad and applies the midday evaporation penalty to
the water level (0.4 dropping to 0.25), but the resulting plant health
lies in [0.45, 0.65), the moderate bucket, not in [0.1, 0.45). -/
theorem c1_full_scan_fixture :
    (performFullScan 0 (0.6, 0.5, 0.6) 13).terrain.soilType = SoilType.bad ∧
    (performFullScan 0 (0.6, 0.5, 0.6) 13).terrain.waterLevel
      = max 0 (waterLevelMap SoilType.bad - 0.15) ∧
    (performFullScan 0 (0.6, 0.5, 0.6) 13).terrain.waterLevel = 0.25 ∧
    0.45 ≤ (performFullScan 0 (0.6, 0.5, 0.6) 13).plant.health ∧
    (performFullScan 0 (0.6, 0.5, 0.6) 13).plant.health < 0.65 ∧
    getHealthState ((performFullScan 0 (0.6, 0.5, 0.6) 13).plant.health)
      = PlantHealthState.moderate := by
  have hs0 := sinHour13_nonneg
  have hs1 := Real.sin_le_one (((13:ℝ) - 6) / 12 * Real.pi)
  have ht : (performFullScan 0 (0.6, 0.5, 0.6) 13).terrain
      = performTerrainScan (0.6, 0.5, 0.6) 13 := rfl
  refine ⟨?_, ?_, ?_, ?_, ?_, ?_⟩
  · rw [ht]; exact terrainScan_fixture_soilType
  · rw [ht, terrainScan_fixture_waterLevel]
    norm_num [waterLevelMap, max_def]
  · rw [ht]; exact terrainScan_fixture_waterLevel
  · rw [fullScan_fixture_health]; nlinarith
  · rw [fullScan_fixture_health]; nlinarith
  · rw [fullScan_fixture_health]
    simp only [getHealthState]
    split_ifs <;> first | rfl | (exfalso; nlinarith)

end AiCubes
